import Mathlib

/-!
Shallow embedding of the availability-resolution and booking logic of the
dental receptionist backend (src/routes.js and src/airtable.js), together
with theorems checking the specified properties of that logic.
-/

/-- A doctor record as produced by getDoctors in airtable.js. -/
structure Doctor where
  name : String
  specialty : String
  deriving Repr, DecidableEq

/-- An appointment record as produced by checkAppointments in airtable.js. -/
structure Appointment where
  patientName : String
  patientPhone : String
  doctor : String
  date : String
  time : String
  status : String
  deriving Repr, DecidableEq

/-- The remote tabular store: the Doctors table and the Appointments table. -/
structure Store where
  doctors : List Doctor
  appointments : List Appointment
  deriving Repr, DecidableEq

/-- getDoctors in airtable.js: reads the full Doctors table. -/
def getDoctors (s : Store) : List Doctor :=
  s.doctors

/-- checkAppointments in airtable.js: the appointments filtered to one calendar
date (exact day match on the date field). -/
def checkAppointments (s : Store) (date : String) : List Appointment :=
  s.appointments.filter (fun a => a.date == date)

/-- Whether needle occurs as a contiguous run inside hay. -/
def listContainsSub (needle : List Char) : List Char → Bool
  | [] => needle.isEmpty
  | c :: rest => needle.isPrefixOf (c :: rest) || listContainsSub needle rest

/-- Models the JavaScript expression hay.includes(needle) on strings. -/
def strIncludes (hay needle : String) : Bool :=
  listContainsSub needle.toList hay.toList

/-- Lower-cases every character of a string, as toLowerCase does on the basic
latin names appearing in the store. -/
def lowerString (s : String) : String :=
  ⟨s.toList.map Char.toLower⟩

/-- Models hay.toLowerCase().includes(needle.toLowerCase()), the
case-insensitive substring test used throughout routes.js. -/
def includesCI (hay needle : String) : Bool :=
  strIncludes (lowerString hay) (lowerString needle)

/-- Long month name, 1 = January. -/
def monthName : Nat → String
  | 1 => "January"
  | 2 => "February"
  | 3 => "March"
  | 4 => "April"
  | 5 => "May"
  | 6 => "June"
  | 7 => "July"
  | 8 => "August"
  | 9 => "September"
  | 10 => "October"
  | 11 => "November"
  | 12 => "December"
  | _ => ""

/-- Long weekday name, 0 = Sunday. -/
def weekdayName : Nat → String
  | 0 => "Sunday"
  | 1 => "Monday"
  | 2 => "Tuesday"
  | 3 => "Wednesday"
  | 4 => "Thursday"
  | 5 => "Friday"
  | 6 => "Saturday"
  | _ => ""

/-- Gregorian leap year test. -/
def isLeapYear (y : Nat) : Bool :=
  (y % 4 == 0 && y % 100 != 0) || y % 400 == 0

/-- Number of days in a Gregorian month. -/
def daysInMonth (y m : Nat) : Nat :=
  if m == 2 then (if isLeapYear y then 29 else 28)
  else if m == 4 || m == 6 || m == 9 || m == 11 then 30
  else 31

/-- Day of week of a Gregorian date, 0 = Sunday, by the Zeller congruence. -/
def dayOfWeek (y m d : Nat) : Nat :=
  let y2 := if m < 3 then y - 1 else y
  let m2 := if m < 3 then m + 12 else m
  let k := y2 % 100
  let j := y2 / 100
  let h := (d + (13 * (m2 + 1)) / 5 + k + k / 4 + j / 4 + 5 * j) % 7
  (h + 6) % 7

/-- Split a character list into the runs separated by dashes. -/
def splitDash : List Char → List (List Char)
  | [] => [[]]
  | c :: rest =>
    let r := splitDash rest
    if c == '-' then [] :: r
    else
      match r with
      | [] => [[c]]
      | g :: gs => (c :: g) :: gs

/-- Whether the character list is a nonempty run of decimal digits. -/
def isDigits (cs : List Char) : Bool :=
  !cs.isEmpty && cs.all (fun c => c.isDigit)

/-- The numeric value of a run of decimal digits. -/
def digitsVal (cs : List Char) : Nat :=
  cs.foldl (fun acc c => acc * 10 + (c.toNat - 48)) 0

/-- Parse a nonempty all-digit character run as a natural number. -/
def parseNat (cs : List Char) : Option Nat :=
  if isDigits cs then some (digitsVal cs) else none

/-- Parse a date string of the form YYYY-MM-DD into year, month, day. -/
def parseISODate (s : String) : Option (Nat × Nat × Nat) :=
  match splitDash s.toList with
  | [ys, ms, ds] =>
    match parseNat ys, parseNat ms, parseNat ds with
    | some y, some m, some d =>
      if 1 ≤ m && m ≤ 12 && 1 ≤ d && d ≤ daysInMonth y m then some (y, m, d) else none
    | _, _, _ => none
  | _ => none

/-- Models the date rendering of routes.js: new Date(date plus a midnight time
suffix) passed to toLocaleDateString with long weekday, long month and numeric
day, giving for example Monday, March 2. -/
def formatLongDate (s : String) : String :=
  match parseISODate s with
  | some (y, m, d) =>
    let w := weekdayName (dayOfWeek y m d)
    let mn := monthName m
    let dn := toString d
    w ++ ", " ++ mn ++ " " ++ dn
  | none => "Invalid Date"

/-- One element of the availabilityData array built by handleCheckAvailability. -/
structure DoctorAvailability where
  doctor : String
  specialty : String
  freeSlots : List String
  deriving Repr, DecidableEq

/-- formatAvailabilityFast in routes.js. -/
def formatAvailabilityFast (availabilityData : List DoctorAvailability) (date : String) : String :=
  let formattedDate := formatLongDate date
  let available := availabilityData.filter (fun d => d.freeSlots.length > 0)
  if available.length == 0 then
    "I\x27m sorry, there are no available slots on " ++ formattedDate ++
      ". Would you like to try a different date?"
  else
    let parts := available.map (fun d =>
      d.doctor ++ " at " ++ String.intercalate ", " (d.freeSlots.take 5))
    "On " ++ formattedDate ++ " we have: " ++ String.intercalate ". " parts ++
      ". Which time works best for you?"

/-- formatConfirmationFast in routes.js. -/
def formatConfirmationFast (patientName doctor date time : String) : String :=
  let formattedDate := formatLongDate date
  "Your appointment is confirmed! " ++ patientName ++ ", you\x27re booked with " ++
    doctor ++ " on " ++ formattedDate ++ " at " ++ time ++ ". We look forward to seeing you!"

/-- The fixed nine hourly slot labels hardcoded in handleCheckAvailability. -/
def allTimeSlots : List String :=
  ["09:00 AM", "10:00 AM", "11:00 AM",
   "12:00 PM", "01:00 PM", "02:00 PM",
   "03:00 PM", "04:00 PM", "05:00 PM"]

/-- A store operation performed by a handler, recorded for effect accounting. -/
inductive StoreEffect where
  | readDoctors
  | readAppointments (date : String)
  | createAppointment (a : Appointment)
  deriving Repr, DecidableEq

/-- Result of a handler: the spoken reply, the store operations performed, and
the store state after the call. -/
structure HandlerOut where
  reply : String
  effects : List StoreEffect
  store : Store
  deriving Repr, DecidableEq

/-- JavaScript falsiness of an optional string argument: absent or empty. -/
def falsyStr : Option String → Bool
  | none => true
  | some s => s.isEmpty

/-- The string value of a present argument. -/
def getStr (o : Option String) : String :=
  o.getD ""

/-- The booked time labels for one doctor: times of appointments whose doctor
field contains the doctor name case-insensitively (routes.js lines 207 to 209). -/
def bookedTimes (existingAppointments : List Appointment) (doc : Doctor) : List String :=
  (existingAppointments.filter (fun appt => includesCI appt.doctor doc.name)).map
    (fun appt => appt.time)

/-- One availabilityData entry: free slots are the fixed slot list minus the
booked labels (routes.js lines 205 to 219). -/
def availabilityFor (existingAppointments : List Appointment) (doc : Doctor) : DoctorAvailability :=
  let booked := bookedTimes existingAppointments doc
  { doctor := doc.name
    specialty := doc.specialty
    freeSlots := allTimeSlots.filter (fun slot => !(booked.contains slot)) }

/-- The roster narrowing applied when a doctor filter is supplied. -/
def narrowRoster (doctor : Option String) (allDoctors : List Doctor) : List Doctor :=
  if falsyStr doctor then allDoctors
  else allDoctors.filter (fun d => includesCI d.name (getStr doctor))

/-- The doctor-not-found reply of handleCheckAvailability. -/
def doctorNotFoundMsg (doctor : String) (allDoctors : List Doctor) : String :=
  let doctorNames := String.intercalate ", " (allDoctors.map (fun d => d.name))
  "I\x27m sorry, I couldn\x27t find a doctor named " ++ doctor ++
    ". Our available doctors are: " ++ doctorNames ++
    ". Would you like to book with one of them?"

/-- The missing-date prompt of handleCheckAvailability. -/
def msgNeedDate : String :=
  "I need a date to check availability. Which date were you thinking?"

/-- The empty-roster apology of handleCheckAvailability. -/
def msgRosterUnavailable : String :=
  "I\x27m sorry, I could not retrieve our doctor list right now. Please call back in a moment."

/-- handleCheckAvailability in routes.js. -/
def handleCheckAvailability (doctor date : Option String) (s : Store) : HandlerOut :=
  if falsyStr date then
    { reply := msgNeedDate, effects := [], store := s }
  else
    let dateV := getStr date
    let allDoctors := getDoctors s
    if allDoctors.length == 0 then
      { reply := msgRosterUnavailable, effects := [StoreEffect.readDoctors], store := s }
    else
      let relevantDoctors := narrowRoster doctor allDoctors
      if falsyStr doctor == false && relevantDoctors.length == 0 then
        { reply := doctorNotFoundMsg (getStr doctor) allDoctors
          effects := [StoreEffect.readDoctors], store := s }
      else
        let existingAppointments := checkAppointments s dateV
        let availabilityData := relevantDoctors.map (availabilityFor existingAppointments)
        { reply := formatAvailabilityFast availabilityData dateV
          effects := [StoreEffect.readDoctors, StoreEffect.readAppointments dateV]
          store := s }

/-- The missing-details prompt of handleBookAppointment. -/
def msgNeedBookingDetails : String :=
  "I need your name, preferred doctor, date, and time to book an appointment. Could you provide those details?"

/-- The slot-taken reply of handleBookAppointment; note it interpolates the raw
date argument, not the long rendered form. -/
def bookingConflictMsg (time doctor date : String) : String :=
  "I\x27m sorry, the " ++ time ++ " slot with " ++ doctor ++ " on " ++ date ++
    " was just taken. Would you like to choose a different time?"

/-- The conflict guard of handleBookAppointment (routes.js lines 243 to 247). -/
def isSlotTaken (existingAppointments : List Appointment) (doctor time : String) : Bool :=
  existingAppointments.any (fun appt =>
    includesCI appt.doctor doctor && appt.time == time && appt.status != "Cancelled")

/-- The record created by bookAppointment in airtable.js. -/
def mkBookedAppointment (patientName patientPhone doctor date time : String) : Appointment :=
  { patientName := patientName
    patientPhone := patientPhone
    doctor := doctor
    date := date
    time := time
    status := "Confirmed" }

/-- handleBookAppointment in routes.js. -/
def handleBookAppointment (patient_name patient_phone doctor date time : Option String)
    (s : Store) : HandlerOut :=
  if falsyStr patient_name || falsyStr doctor || falsyStr date || falsyStr time then
    { reply := msgNeedBookingDetails, effects := [], store := s }
  else
    let nameV := getStr patient_name
    let phoneV := if falsyStr patient_phone then "Not provided" else getStr patient_phone
    let doctorV := getStr doctor
    let dateV := getStr date
    let timeV := getStr time
    let existingAppointments := checkAppointments s dateV
    if isSlotTaken existingAppointments doctorV timeV then
      { reply := bookingConflictMsg timeV doctorV dateV
        effects := [StoreEffect.readAppointments dateV], store := s }
    else
      let newAppt := mkBookedAppointment nameV phoneV doctorV dateV timeV
      { reply := formatConfirmationFast nameV doctorV dateV timeV
        effects := [StoreEffect.readAppointments dateV, StoreEffect.createAppointment newAppt]
        store := { s with appointments := s.appointments ++ [newAppt] } }

/-- The argument object carried by a tool invocation. -/
structure ToolArgs where
  doctor : Option String
  date : Option String
  patient_name : Option String
  patient_phone : Option String
  time : Option String
  deriving Repr, DecidableEq

/-- The response returned to the platform for a tool call. -/
structure ToolResponse where
  tool_call_id : String
  content : String
  deriving Repr, DecidableEq

/-- The unknown-tool reply of the webhook dispatcher. -/
def msgUnknownTool : String :=
  "I apologize, I could not process that request. Please try again."

/-- The tool_call_invocation branch of the retell webhook (routes.js lines 79
to 118): route on the tool name, echo the correlation id back. -/
def dispatchToolCall (toolName toolCallId : String) (args : ToolArgs) (s : Store) :
    ToolResponse × Store :=
  if toolName == "check_availability" then
    let out := handleCheckAvailability args.doctor args.date s
    ({ tool_call_id := toolCallId, content := out.reply }, out.store)
  else if toolName == "book_appointment" then
    let out := handleBookAppointment args.patient_name args.patient_phone args.doctor
      args.date args.time s
    ({ tool_call_id := toolCallId, content := out.reply }, out.store)
  else
    ({ tool_call_id := toolCallId, content := msgUnknownTool }, s)

/-! Helper lemmas shared by the claim theorems. -/

theorem isSlotTaken_iff (l : List Appointment) (d t : String) :
    isSlotTaken l d t = true ↔
      ∃ a ∈ l, a.status ≠ "Cancelled" ∧ a.time = t ∧ includesCI a.doctor d = true := by
  simp only [isSlotTaken, List.any_eq_true, Bool.and_eq_true, beq_iff_eq, bne_iff_ne]
  constructor
  · rintro ⟨a, ha, ⟨hi, htm⟩, hst⟩
    exact ⟨a, ha, hst, htm, hi⟩
  · rintro ⟨a, ha, hst, htm, hi⟩
    exact ⟨a, ha, ⟨hi, htm⟩, hst⟩

theorem mem_freeSlots_iff (l : List Appointment) (doc : Doctor) (slot : String) :
    slot ∈ (availabilityFor l doc).freeSlots ↔
      slot ∈ allTimeSlots ∧ ¬ ∃ a ∈ l, includesCI a.doctor doc.name = true ∧ a.time = slot := by
  simp only [availabilityFor, bookedTimes, List.mem_filter, Bool.not_eq_true',
    List.contains, List.elem_eq_mem, decide_eq_false_iff_not, List.mem_map]
  constructor
  · rintro ⟨hmem, hnb⟩
    refine ⟨hmem, ?_⟩
    rintro ⟨a, ha, hi, htm⟩
    exact hnb ⟨a, ⟨ha, hi⟩, htm⟩
  · rintro ⟨hmem, hne⟩
    refine ⟨hmem, ?_⟩
    rintro ⟨a, ⟨ha, hi⟩, htm⟩
    exact hne ⟨a, ha, hi, htm⟩

theorem handleBookAppointment_eq (s : Store) (pn ph d dt t : String)
    (hpn : pn ≠ "") (hd : d ≠ "") (hdt : dt ≠ "") (ht : t ≠ "") :
    handleBookAppointment (some pn) (some ph) (some d) (some dt) (some t) s =
      (if isSlotTaken (checkAppointments s dt) d t then
        { reply := bookingConflictMsg t d dt
          effects := [StoreEffect.readAppointments dt], store := s }
      else
        { reply := formatConfirmationFast pn d dt t
          effects := [StoreEffect.readAppointments dt,
            StoreEffect.createAppointment
              (mkBookedAppointment pn (if ph.isEmpty then "Not provided" else ph) d dt t)]
          store := { s with appointments := s.appointments ++
            [mkBookedAppointment pn (if ph.isEmpty then "Not provided" else ph) d dt t] } }) := by
  simp [handleBookAppointment, falsyStr, String.isEmpty_iff, hpn, hd, hdt, ht, getStr]

/-! Concrete store states used by the witness theorems. -/

/-- A roster with two doctors and no appointments. -/
def twoDoctorStore : Store :=
  { doctors := [{ name := "Dr. Ahmed Khan", specialty := "General Dentistry" },
                { name := "Dr. Sara Malik", specialty := "Cosmetic Dentistry" }]
    appointments := [] }

/-- A store holding one confirmed appointment at 10:00 AM on 2026-03-02. -/
def confirmedSlotStore : Store :=
  { doctors := [{ name := "Dr. Ahmed Khan", specialty := "General Dentistry" }]
    appointments := [⟨"Bob", "1", "Dr. Ahmed Khan", "2026-03-02", "10:00 AM", "Confirmed"⟩] }

/-- A store holding one cancelled appointment at 10:00 AM on 2026-03-02. -/
def cancelledSlotStore : Store :=
  { doctors := [{ name := "Dr. Ahmed Khan", specialty := "General Dentistry" }]
    appointments := [⟨"Bob", "1", "Dr. Ahmed Khan", "2026-03-02", "10:00 AM", "Cancelled"⟩] }

/-- C1: for every store state, date and doctor, the free slots computed by the
availability check are the fixed ordered nine-label slot list minus the booked
labels for that doctor, where a booked label is the time of any appointment on
that date whose doctor field contains the doctor name as a case-insensitive
substring, label comparison is exact string equality, and the free-slot
sequence is a subsequence of the fixed list, so its order is preserved. -/
theorem C1_free_slots_set_difference (s : Store) (date : String) (doc : Doctor) :
    List.Sublist ((availabilityFor (checkAppointments s date) doc).freeSlots) allTimeSlots ∧
    ∀ slot, slot ∈ (availabilityFor (checkAppointments s date) doc).freeSlots ↔
      slot ∈ allTimeSlots ∧
        ¬ ∃ a ∈ checkAppointments s date, includesCI a.doctor doc.name = true ∧ a.time = slot :=
  ⟨List.filter_sublist _, fun slot => mem_freeSlots_iff (checkAppointments s date) doc slot⟩

/-- C2: with all required booking arguments present, the conflict guard rejects
with the slot-just-taken reply and leaves the store unchanged exactly when some
appointment fetched for that date has status other than Cancelled, time equal
to the requested label, and a doctor field containing the requested doctor name
case-insensitively; otherwise exactly one new appointment record is appended. -/
theorem C2_booking_conflict_guard (s : Store) (pn ph d dt t : String)
    (hpn : pn ≠ "") (hd : d ≠ "") (hdt : dt ≠ "") (ht : t ≠ "") :
    ((∃ a ∈ checkAppointments s dt,
        a.status ≠ "Cancelled" ∧ a.time = t ∧ includesCI a.doctor d = true) ↔
      ((handleBookAppointment (some pn) (some ph) (some d) (some dt) (some t) s).reply =
          bookingConflictMsg t d dt ∧
        (handleBookAppointment (some pn) (some ph) (some d) (some dt) (some t) s).store = s)) ∧
    ((¬ ∃ a ∈ checkAppointments s dt,
        a.status ≠ "Cancelled" ∧ a.time = t ∧ includesCI a.doctor d = true) →
      (handleBookAppointment (some pn) (some ph) (some d) (some dt) (some t) s).store.appointments =
        s.appointments ++
          [mkBookedAppointment pn (if ph.isEmpty then "Not provided" else ph) d dt t]) := by
  have hout := handleBookAppointment_eq s pn ph d dt t hpn hd hdt ht
  cases hcase : isSlotTaken (checkAppointments s dt) d t with
  | true =>
    rw [hcase, if_pos rfl] at hout
    have hex := (isSlotTaken_iff (checkAppointments s dt) d t).mp hcase
    constructor
    · exact iff_of_true hex ⟨by rw [hout], by rw [hout]⟩
    · intro hne
      exact absurd hex hne
  | false =>
    rw [hcase, if_neg (by simp)] at hout
    have hnex : ¬ ∃ a ∈ checkAppointments s dt,
        a.status ≠ "Cancelled" ∧ a.time = t ∧ includesCI a.doctor d = true := by
      intro hex
      rw [(isSlotTaken_iff (checkAppointments s dt) d t).mpr hex] at hcase
      exact absurd hcase (by simp)
    constructor
    · apply iff_of_false hnex
      rintro ⟨_, hstore⟩
      have := congrArg (fun st => st.appointments.length) hstore
      rw [hout] at this
      simp at this
    · intro _
      rw [hout]

/-- Witness for C2: a cancelled appointment at the requested slot does not
block the booking, and exactly one new record is appended. -/
theorem C2_booking_conflict_guard_witness :
    (handleBookAppointment (some "Jane") (some "") (some "Ahmed") (some "2026-03-02")
        (some "10:00 AM") cancelledSlotStore).store.appointments =
      cancelledSlotStore.appointments ++
        [mkBookedAppointment "Jane" "Not provided" "Ahmed" "2026-03-02" "10:00 AM"] :=
  ((C2_booking_conflict_guard cancelledSlotStore "Jane" "" "Ahmed" "2026-03-02" "10:00 AM"
    (by decide) (by decide) (by decide) (by decide)).2 (by decide)).trans (by decide)

/-- The availability check never modifies the store. -/
theorem checkAvailability_store_eq (doctor date : Option String) (s : Store) :
    (handleCheckAvailability doctor date s).store = s := by
  by_cases h1 : falsyStr date = true
  · simp [handleCheckAvailability, h1]
  · by_cases h2 : s.doctors.length = 0
    · simp [handleCheckAvailability, h1, h2, getDoctors]
    · simp only [handleCheckAvailability, h1, h2, getDoctors, if_false, Bool.if_false_left]
      simp [h1, h2]
      split <;> rfl

/-- C8: the availability check is deterministic in the store state: it leaves
the store unchanged, so running it twice in sequence with the same date and
doctor filter yields identical formatted replies. -/
theorem C8_availability_deterministic (doctor date : Option String) (s : Store) :
    (handleCheckAvailability doctor date s).store = s ∧
    (handleCheckAvailability doctor date ((handleCheckAvailability doctor date s).store)).reply =
      (handleCheckAvailability doctor date s).reply :=
  ⟨checkAvailability_store_eq doctor date s, by rw [checkAvailability_store_eq doctor date s]⟩

/-- C9: with a date supplied, an empty doctor roster makes the availability
check return the could-not-retrieve apology, reading only the Doctors table
and never proceeding to the appointment lookup. -/
theorem C9_empty_roster_apology (doctor : Option String) (dt : String) (s : Store)
    (hdt : dt ≠ "") (h : s.doctors = []) :
    handleCheckAvailability doctor (some dt) s =
      { reply := msgRosterUnavailable, effects := [StoreEffect.readDoctors], store := s } := by
  simp [handleCheckAvailability, falsyStr, String.isEmpty_iff, hdt, getDoctors, h]

/-- Witness for C9 at an empty store. -/
theorem C9_empty_roster_apology_witness :
    handleCheckAvailability (some "Ahmed") (some "2026-03-02") { doctors := [], appointments := [] } =
      { reply := msgRosterUnavailable, effects := [StoreEffect.readDoctors]
        store := { doctors := [], appointments := [] } } :=
  C9_empty_roster_apology (some "Ahmed") "2026-03-02" _ (by decide) rfl

/-- C10: the availability resolver does not filter appointments by status: a
Cancelled appointment whose doctor field matches still removes its time label
from the free slots, while the booking conflict guard ignores it, so the slot
is reported unavailable by check_availability yet bookable by book_appointment. -/
theorem C10_cancelled_blocks_availability_only (a : Appointment) (doc : Doctor) (d t : String)
    (hst : a.status = "Cancelled") (hmatch : includesCI a.doctor doc.name = true) :
    a.time ∉ (availabilityFor [a] doc).freeSlots ∧ isSlotTaken [a] d t = false := by
  constructor
  · intro hmem
    rcases (mem_freeSlots_iff [a] doc a.time).mp hmem with ⟨_, hne⟩
    exact hne ⟨a, by simp, hmatch, rfl⟩
  · simp [isSlotTaken, hst]

/-- Witness for C10: the cancelled 10:00 AM appointment removes the slot from
availability yet does not trip the booking guard. -/
theorem C10_cancelled_blocks_availability_only_witness :
    "10:00 AM" ∉ (availabilityFor [⟨"Bob", "1", "Dr. Ahmed Khan", "2026-03-02", "10:00 AM", "Cancelled"⟩]
        { name := "Dr. Ahmed Khan", specialty := "General Dentistry" }).freeSlots ∧
      isSlotTaken [⟨"Bob", "1", "Dr. Ahmed Khan", "2026-03-02", "10:00 AM", "Cancelled"⟩]
        "Ahmed" "10:00 AM" = false :=
  C10_cancelled_blocks_availability_only
    ⟨"Bob", "1", "Dr. Ahmed Khan", "2026-03-02", "10:00 AM", "Cancelled"⟩
    { name := "Dr. Ahmed Khan", specialty := "General Dentistry" } "Ahmed" "10:00 AM"
    (by decide) (by decide)

/-- C3: a supplied doctor filter narrows the roster to exactly the doctors
whose name contains the filter case-insensitively (so filtering ahmed matches
Dr. Ahmed Khan), and a narrowing with zero matches makes the availability
check return the doctor-not-found reply listing the full roster, as a normal
outcome leaving the store unchanged. -/
theorem C3_doctor_filter_narrowing (s : Store) (f date : String)
    (hf : f ≠ "") (hdate : date ≠ "") (hros : s.doctors ≠ []) :
    (∀ doc : Doctor, doc ∈ narrowRoster (some f) s.doctors ↔
      doc ∈ s.doctors ∧ includesCI doc.name f = true) ∧
    (narrowRoster (some f) s.doctors = [] →
      handleCheckAvailability (some f) (some date) s =
        { reply := doctorNotFoundMsg f s.doctors
          effects := [StoreEffect.readDoctors], store := s }) ∧
    includesCI "Dr. Ahmed Khan" "ahmed" = true := by
  refine ⟨?_, ?_, by decide⟩
  · intro doc
    simp [narrowRoster, falsyStr, String.isEmpty_iff, hf, getStr]
  · intro hnil
    simp [handleCheckAvailability, falsyStr, String.isEmpty_iff, hf, hdate, getStr, getDoctors,
      hnil, List.length_eq_zero, hros]

/-- Witness for C3: asking for Dr. Unknown on a two-doctor roster yields the
doctor-not-found reply listing both roster names. -/
theorem C3_doctor_filter_narrowing_witness :
    (handleCheckAvailability (some "Dr. Unknown") (some "2026-03-02") twoDoctorStore).reply =
      "I\x27m sorry, I couldn\x27t find a doctor named Dr. Unknown. Our available doctors are: Dr. Ahmed Khan, Dr. Sara Malik. Would you like to book with one of them?" :=
  (congrArg HandlerOut.reply
    ((C3_doctor_filter_narrowing twoDoctorStore "Dr. Unknown" "2026-03-02"
      (by decide) (by decide) (by decide)).2.1 (by decide))).trans (by decide)

/-- C4: if no doctor in the availability result has a free slot the formatter
returns exactly the fully-booked apology; otherwise it returns the
availability-found message listing each doctor having free slots, slots
truncated to five labels joined by comma-space, doctors joined by
period-space. -/
theorem C4_formatter_branches (data : List DoctorAvailability) (date : String) :
    ((∀ d ∈ data, d.freeSlots = []) →
      formatAvailabilityFast data date =
        "I\x27m sorry, there are no available slots on " ++ formatLongDate date ++
          ". Would you like to try a different date?") ∧
    ((∃ d ∈ data, d.freeSlots ≠ []) →
      formatAvailabilityFast data date =
        "On " ++ formatLongDate date ++ " we have: " ++
          String.intercalate ". "
            ((data.filter (fun d => !(d.freeSlots.isEmpty))).map (fun d =>
              d.doctor ++ " at " ++ String.intercalate ", " (d.freeSlots.take 5))) ++
          ". Which time works best for you?") := by
  have hfilter : data.filter (fun d => decide (d.freeSlots.length > 0)) =
      data.filter (fun d => !(d.freeSlots.isEmpty)) := by
    apply List.filter_congr
    intro d _
    cases h : d.freeSlots <;> simp [h]
  constructor
  · intro hall
    have hnil : data.filter (fun d => decide (d.freeSlots.length > 0)) = [] := by
      simp only [List.filter_eq_nil_iff]
      intro d hd
      simp [hall d hd]
    simp [formatAvailabilityFast, hnil]
  · rintro ⟨d0, hd0, hne⟩
    have hmem : d0 ∈ data.filter (fun d => decide (d.freeSlots.length > 0)) := by
      simp [List.mem_filter, hd0, List.length_pos, hne]
    have hlen : (data.filter (fun d => decide (d.freeSlots.length > 0))).length ≠ 0 := by
      intro h0
      rw [List.length_eq_zero] at h0
      rw [h0] at hmem
      simp at hmem
    have hcond : ((data.filter (fun d => decide (d.freeSlots.length > 0))).length == 0) = false := by
      simp only [beq_eq_false_iff_ne, ne_eq]
      exact hlen
    simp only [formatAvailabilityFast]
    rw [hcond, hfilter]
    simp

/-- Witness for C4: one doctor with two free slots produces the found message. -/
theorem C4_formatter_branches_witness :
    formatAvailabilityFast
        [⟨"Dr. Ahmed Khan", "General Dentistry", ["09:00 AM", "11:00 AM"]⟩] "2026-03-02" =
      "On Monday, March 2 we have: Dr. Ahmed Khan at 09:00 AM, 11:00 AM. Which time works best for you?" :=
  ((C4_formatter_branches
      [⟨"Dr. Ahmed Khan", "General Dentistry", ["09:00 AM", "11:00 AM"]⟩] "2026-03-02").2
    (by decide)).trans (by decide)

/-- C5 counterexample: the booking-conflict reply interpolates the raw ISO
date 2026-03-02, which differs from the long human form Monday, March 2 that
the booking-confirmed and availability messages use, so the conflict message
does not render the date in the long human form. -/
theorem C5_counterexample_raw_vs_long_date :
    (handleBookAppointment (some "Jane") (some "") (some "Dr. Ahmed Khan") (some "2026-03-02")
        (some "10:00 AM") confirmedSlotStore).reply =
      "I\x27m sorry, the 10:00 AM slot with Dr. Ahmed Khan on 2026-03-02 was just taken. Would you like to choose a different time?" ∧
    formatLongDate "2026-03-02" = "Monday, March 2" ∧
    "I\x27m sorry, the 10:00 AM slot with Dr. Ahmed Khan on 2026-03-02 was just taken. Would you like to choose a different time?" ≠
      "I\x27m sorry, the 10:00 AM slot with Dr. Ahmed Khan on " ++ formatLongDate "2026-03-02" ++
        " was just taken. Would you like to choose a different time?" :=
  ⟨by decide, by decide, by decide⟩

/-- C5 amended: the booking-conflict message renders its date as the raw ISO
date argument, while the booking-confirmed message renders the date in the
long human form produced by the shared date formatter. -/
theorem C5_conflict_message_raw_date (s : Store) (pn ph d dt t : String)
    (hpn : pn ≠ "") (hd : d ≠ "") (hdt : dt ≠ "") (ht : t ≠ "") :
    ((∃ a ∈ checkAppointments s dt,
        a.status ≠ "Cancelled" ∧ a.time = t ∧ includesCI a.doctor d = true) →
      (handleBookAppointment (some pn) (some ph) (some d) (some dt) (some t) s).reply =
        "I\x27m sorry, the " ++ t ++ " slot with " ++ d ++ " on " ++ dt ++
          " was just taken. Would you like to choose a different time?") ∧
    ((¬ ∃ a ∈ checkAppointments s dt,
        a.status ≠ "Cancelled" ∧ a.time = t ∧ includesCI a.doctor d = true) →
      (handleBookAppointment (some pn) (some ph) (some d) (some dt) (some t) s).reply =
        "Your appointment is confirmed! " ++ pn ++ ", you\x27re booked with " ++ d ++ " on " ++
          formatLongDate dt ++ " at " ++ t ++ ". We look forward to seeing you!") := by
  have hout := handleBookAppointment_eq s pn ph d dt t hpn hd hdt ht
  constructor
  · intro hex
    rw [hout, if_pos ((isSlotTaken_iff (checkAppointments s dt) d t).mpr hex)]
    rfl
  · intro hnex
    have hfalse : isSlotTaken (checkAppointments s dt) d t = false := by
      cases hc : isSlotTaken (checkAppointments s dt) d t
      · rfl
      · exact absurd ((isSlotTaken_iff (checkAppointments s dt) d t).mp hc) hnex
    rw [hout, hfalse, if_neg (by simp)]
    rfl

/-- Witness for C5 amended: a conflicting booking yields the conflict reply
with the raw ISO date inside. -/
theorem C5_conflict_message_raw_date_witness :
    (handleBookAppointment (some "Jane") (some "") (some "Ahmed") (some "2026-03-02")
        (some "10:00 AM") confirmedSlotStore).reply =
      "I\x27m sorry, the 10:00 AM slot with Ahmed on 2026-03-02 was just taken. Would you like to choose a different time?" :=
  ((C5_conflict_message_raw_date confirmedSlotStore "Jane" "" "Ahmed" "2026-03-02" "10:00 AM"
    (by decide) (by decide) (by decide) (by decide)).1 (by decide)).trans (by decide)

/-- C6: an availability check without a date, and a booking missing any of
patient name, doctor, date or time, return the corresponding spoken prompt,
perform no store read or write, leave the store unchanged, and at the dispatch
level produce a normal tool response echoing the correlation id. -/
theorem C6_missing_argument_prompts :
    (∀ (doctor : Option String) (s : Store),
      handleCheckAvailability doctor none s =
        { reply := msgNeedDate, effects := [], store := s }) ∧
    (∀ (pn ph d dt t : Option String) (s : Store),
      (pn = none ∨ d = none ∨ dt = none ∨ t = none) →
      handleBookAppointment pn ph d dt t s =
        { reply := msgNeedBookingDetails, effects := [], store := s }) ∧
    (∀ (tcid : String) (args : ToolArgs) (s : Store), args.date = none →
      dispatchToolCall "check_availability" tcid args s =
        ({ tool_call_id := tcid, content := msgNeedDate }, s)) := by
  refine ⟨?_, ?_, ?_⟩
  · intro doctor s
    simp [handleCheckAvailability, falsyStr]
  · rintro pn ph d dt t s (rfl | rfl | rfl | rfl) <;>
      simp [handleBookAppointment, falsyStr]
  · intro tcid args s h
    simp [dispatchToolCall, handleCheckAvailability, h, falsyStr]

/-- Witness for C6 at concrete missing arguments. -/
theorem C6_missing_argument_prompts_witness :
    handleCheckAvailability (some "Ahmed") none twoDoctorStore =
      { reply := msgNeedDate, effects := [], store := twoDoctorStore } ∧
    handleBookAppointment (some "Jane") none (some "Ahmed") none (some "10:00 AM")
        twoDoctorStore =
      { reply := msgNeedBookingDetails, effects := [], store := twoDoctorStore } :=
  ⟨C6_missing_argument_prompts.1 (some "Ahmed") twoDoctorStore,
   C6_missing_argument_prompts.2.1 (some "Jane") none (some "Ahmed") none (some "10:00 AM")
     twoDoctorStore (Or.inr (Or.inr (Or.inl rfl)))⟩

/-- C7: any tool name other than check_availability and book_appointment makes
the dispatcher return the fixed could-not-process reply as a normal response,
echoing the correlation id and leaving the store unchanged. -/
theorem C7_unknown_tool_dispatch (toolName toolCallId : String) (args : ToolArgs) (s : Store)
    (h1 : toolName ≠ "check_availability") (h2 : toolName ≠ "book_appointment") :
    dispatchToolCall toolName toolCallId args s =
      ({ tool_call_id := toolCallId, content := msgUnknownTool }, s) := by
  simp [dispatchToolCall, h1, h2]

/-- Witness for C7 at a concrete unknown tool name. -/
theorem C7_unknown_tool_dispatch_witness :
    dispatchToolCall "cancel_appointment" "call-77" ⟨none, none, none, none, none⟩
        twoDoctorStore =
      ({ tool_call_id := "call-77", content := msgUnknownTool }, twoDoctorStore) :=
  C7_unknown_tool_dispatch "cancel_appointment" "call-77" ⟨none, none, none, none, none⟩
    twoDoctorStore (by decide) (by decide)
